import Mathlib

/-!
Verification of the slam3d pose-graph mapper core against its specification.

The development shallowly embeds the code of src/src/GraphMapper.cpp and
src/src/PointCloudSensor.cpp. Scalars are modelled by exact rationals
(the source computes with IEEE doubles; the claims under study are about
the algebraic control/data flow, not about rounding). External numerical
library routines (Eigen angle extraction, PCL voxel filter, PCL
generalized ICP) are parameters of the embedded functions; everything the
repository itself computes is embedded as executable Lean definitions.
-/

/-- Three-dimensional vector over the embedding's scalars (Eigen Vector3). -/
structure Vec3 where
  x : ℚ
  y : ℚ
  z : ℚ
deriving DecidableEq

/-- Dot product of two 3-vectors. -/
def Vec3.dot (a b : Vec3) : ℚ :=
  a.x * b.x + a.y * b.y + a.z * b.z

/-- Cross product of two 3-vectors. -/
def Vec3.cross (a b : Vec3) : Vec3 :=
  ⟨a.y * b.z - a.z * b.y, a.z * b.x - a.x * b.z, a.x * b.y - a.y * b.x⟩

/-- Scalar multiple of a 3-vector. -/
def Vec3.smul (s : ℚ) (a : Vec3) : Vec3 :=
  ⟨s * a.x, s * a.y, s * a.z⟩

/-- Difference of two 3-vectors. -/
def Vec3.sub (a b : Vec3) : Vec3 :=
  ⟨a.x - b.x, a.y - b.y, a.z - b.z⟩

/-- Sum of two 3-vectors. -/
def Vec3.add (a b : Vec3) : Vec3 :=
  ⟨a.x + b.x, a.y + b.y, a.z + b.z⟩

/-- Linear combination c.x * r0 + c.y * r1 + c.z * r2 of three row vectors. -/
def Vec3.combo (c r0 r1 r2 : Vec3) : Vec3 :=
  (Vec3.smul c.x r0).add ((Vec3.smul c.y r1).add (Vec3.smul c.z r2))

/-- Rigid 3D transform (Eigen Isometry3d): rotation part stored as its three
rows rx, ry, rz, plus the translation column tr. Entry t(i,j) of the source
for j < 3 is row i, component j; t(i,3) is the translation. -/
structure Transform where
  rx : Vec3
  ry : Vec3
  rz : Vec3
  tr : Vec3
deriving DecidableEq

/-- Identity transform (Transform::Identity()). -/
def Transform.id : Transform :=
  ⟨⟨1, 0, 0⟩, ⟨0, 1, 0⟩, ⟨0, 0, 1⟩, ⟨0, 0, 0⟩⟩

/-- Application of a rigid transform to a point: R p + t. -/
def Transform.apply (T : Transform) (p : Vec3) : Vec3 :=
  ⟨T.rx.dot p + T.tr.x, T.ry.dot p + T.tr.y, T.rz.dot p + T.tr.z⟩

/-- Composition of rigid transforms (operator* of Eigen isometries):
rotation R_A R_B, translation R_A t_B + t_A. -/
def Transform.comp (A B : Transform) : Transform :=
  { rx := Vec3.combo A.rx B.rx B.ry B.rz
    ry := Vec3.combo A.ry B.rx B.ry B.rz
    rz := Vec3.combo A.rz B.rx B.ry B.rz
    tr := A.apply B.tr }

instance : Mul Transform :=
  ⟨Transform.comp⟩

/-- Inverse of a rigid transform (Eigen Isometry inverse):
rotation transposed, translation -(R^T t). -/
def Transform.inv (T : Transform) : Transform :=
  let c0 : Vec3 := ⟨T.rx.x, T.ry.x, T.rz.x⟩
  let c1 : Vec3 := ⟨T.rx.y, T.ry.y, T.rz.y⟩
  let c2 : Vec3 := ⟨T.rx.z, T.ry.z, T.rz.z⟩
  { rx := c0
    ry := c1
    rz := c2
    tr := ⟨-(c0.dot T.tr), -(c1.dot T.tr), -(c2.dot T.tr)⟩ }

/-- Embedding of orthogonalize (src/src/GraphMapper.cpp, lines 14-42):
re-orthogonalization of the rotation part of a transform. The rotation rows
x and y are read from the matrix, the mutual error x.dot y is split between
them, the third row is rebuilt as a cross product, and each row is rescaled
by the first-order inverse-square-root approximation 0.5 * (3 - v.dot v).
The translation column of the result is the one of the input (the source
copies t into res and only overwrites the nine rotation entries). -/
def orthogonalize (t : Transform) : Transform :=
  let x : Vec3 := t.rx
  let y : Vec3 := t.ry
  let error : ℚ := x.dot y
  let x_ort : Vec3 := x.sub (Vec3.smul (error / 2) y)
  let y_ort : Vec3 := y.sub (Vec3.smul (error / 2) x)
  let z_ort : Vec3 := x_ort.cross y_ort
  let xdot : ℚ := (1 / 2) * (3 - x_ort.dot x_ort)
  let ydot : ℚ := (1 / 2) * (3 - y_ort.dot y_ort)
  let zdot : ℚ := (1 / 2) * (3 - z_ort.dot z_ort)
  { rx := Vec3.smul xdot x_ort
    ry := Vec3.smul ydot y_ort
    rz := Vec3.smul zdot z_ort
    tr := t.tr }

/-- Renormalization step exactly as the specification words it: scale a row
vector v by 0.5 * (3 - v.dot v). Spec-side definition used to state C4. -/
def specRescale (v : Vec3) : Vec3 :=
  Vec3.smul ((1 / 2) * (3 - v.dot v)) v

/-- Orthogonalization as the specification describes it (spec section 4.1),
written from the spec's words, to be compared against the source embedding:
with rows x, y of the rotation and error = x.dot y, replace x, y by
x - (error/2) y and y - (error/2) x, set z to their cross product, and
renormalize each row by specRescale; keep the translation. -/
def orthogonalizeSpec (t : Transform) : Transform :=
  let error : ℚ := t.rx.dot t.ry
  let x' : Vec3 := t.rx.sub (Vec3.smul (error / 2) t.ry)
  let y' : Vec3 := t.ry.sub (Vec3.smul (error / 2) t.rx)
  let z' : Vec3 := x'.cross y'
  { rx := specRescale x'
    ry := specRescale y'
    rz := specRescale z'
    tr := t.tr }

/-- Covariance matrix: 6x6 matrix over the se(3) tangent space. -/
def Covariance : Type :=
  Fin 6 → Fin 6 → ℚ

/-- Identity covariance (Covariance::Identity()). -/
def covIdentity : Covariance :=
  fun i j => if i = j then 1 else 0

/-- Pair of a relative transform and its covariance, the result type of
sensor registration. -/
structure TransformWithCovariance where
  transform : Transform
  covariance : Covariance

/-- Exceptions thrown by sensor registration: NoMatch when registration
cannot produce an estimate, BadMeasurementType when a measurement is not of
the sensor's payload type. -/
inductive SensorError where
  | noMatch
  | badMeasurementType
deriving DecidableEq

/-- Measurement: robot name, sensor name, unique id, timestamp, and the
sensor payload. The pointCloud constructor models PointCloudMeasurement
(the payload is the list of points); the generic constructor models any
other Measurement subtype, for which the dynamic cast to
PointCloudMeasurement fails. -/
inductive Measurement where
  | pointCloud (robot : String) (sname : String) (uid : Nat) (stamp : Nat)
      (cloud : List Vec3)
  | generic (robot : String) (sname : String) (uid : Nat) (stamp : Nat)
deriving DecidableEq

/-- Sensor name carried by a measurement. -/
def Measurement.sensorName : Measurement → String
  | Measurement.pointCloud _ s _ _ _ => s
  | Measurement.generic _ s _ _ => s

/-- Robot name carried by a measurement. -/
def Measurement.robotName : Measurement → String
  | Measurement.pointCloud r _ _ _ _ => r
  | Measurement.generic r _ _ _ => r

/-- Unique id carried by a measurement. -/
def Measurement.uniqueId : Measurement → Nat
  | Measurement.pointCloud _ _ u _ _ => u
  | Measurement.generic _ _ u _ => u

/-- Timestamp carried by a measurement. -/
def Measurement.stamp : Measurement → Nat
  | Measurement.pointCloud _ _ _ ts _ => ts
  | Measurement.generic _ _ _ ts => ts

/-- Whether the dynamic cast to PointCloudMeasurement succeeds. -/
def Measurement.isPointCloud : Measurement → Bool
  | Measurement.pointCloud _ _ _ _ _ => true
  | Measurement.generic _ _ _ _ => false

/-- Point-cloud payload of a measurement (empty for other payload types;
only read behind a successful cast). -/
def Measurement.cloudData : Measurement → List Vec3
  | Measurement.pointCloud _ _ _ _ c => c
  | Measurement.generic _ _ _ _ => []

/-- Result of the external generalized-ICP aligner: convergence flag and
the final 4x4 transformation matrix. An entry holds some q for a finite
value; none models a non-finite (NaN) entry, which the source detects with
the floating-point self-inequality idiom (x == x is false only for NaN). -/
structure ICPResult where
  converged : Bool
  finalTransformation : Fin 4 → Fin 4 → Option ℚ

/-- The source's validity check (tf_matrix.array() == tf_matrix.array()).all():
true iff every entry of the fixed 4x4 matrix is finite. -/
def allFinite (m : Fin 4 → Fin 4 → Option ℚ) : Bool :=
  (m 0 0).isSome && (m 0 1).isSome && (m 0 2).isSome && (m 0 3).isSome &&
  (m 1 0).isSome && (m 1 1).isSome && (m 1 2).isSome && (m 1 3).isSome &&
  (m 2 0).isSome && (m 2 1).isSome && (m 2 2).isSome && (m 2 3).isSome &&
  (m 3 0).isSome && (m 3 1).isSome && (m 3 2).isSome && (m 3 3).isSome

/-- Entry of the ICP matrix as a scalar; the default 0 is a totality device
only, the conversion below is used only on matrices that passed allFinite. -/
def entryOrZero (m : Fin 4 → Fin 4 → Option ℚ) (i j : Fin 4) : ℚ :=
  (m i j).getD 0

/-- Conversion of the ICP 4x4 matrix to a Transform (the source's
Transform tf(tf_matrix.cast of double)): rotation rows from the top-left
3x3 block, translation from column 3. -/
def matrixToTransform (m : Fin 4 → Fin 4 → Option ℚ) : Transform :=
  { rx := ⟨entryOrZero m 0 0, entryOrZero m 0 1, entryOrZero m 0 2⟩
    ry := ⟨entryOrZero m 1 0, entryOrZero m 1 1, entryOrZero m 1 2⟩
    rz := ⟨entryOrZero m 2 0, entryOrZero m 2 1, entryOrZero m 2 2⟩
    tr := ⟨entryOrZero m 0 3, entryOrZero m 1 3, entryOrZero m 2 3⟩ }

/-- pcl transformPointCloud: apply a rigid transform to every point. -/
def transformPointCloud (T : Transform) (cloud : List Vec3) : List Vec3 :=
  cloud.map T.apply

/-- Leaf size of the voxel filter used by calculateTransform (FLT_SIZE 2.0
in src/src/PointCloudSensor.cpp). -/
def fltSize : ℚ :=
  2

/-- Embedding of PointCloudSensor::calculateTransform
(src/src/PointCloudSensor.cpp, lines 34-105). The external PCL voxel-grid
filter is the parameter vg (cloud and leaf size to filtered cloud); the
external generalized-ICP aligner is the parameter icpAlign (shifted source
cloud and target cloud to ICPResult). The wrapping logic is the source's:
cast both measurements (BadMeasurementType if either fails), downsample
both clouds at fltSize, shift the source cloud by the guess, align, throw
NoMatch unless ICP converged, keep the initialized identity result if the
final matrix has a non-finite entry (only logging an error), otherwise
return guess * tf with the identity covariance the result was initialized
with. The commented-out fitness-score test of the source is not part of
the embedding. -/
def calculateTransform (vg : List Vec3 → ℚ → List Vec3)
    (icpAlign : List Vec3 → List Vec3 → ICPResult)
    (source target : Measurement) (guess : Transform) :
    Except SensorError TransformWithCovariance :=
  match source, target with
  | Measurement.pointCloud _ _ _ _ sourceCloud,
    Measurement.pointCloud _ _ _ _ targetCloud =>
      let filtered_source := vg sourceCloud fltSize
      let filtered_target := vg targetCloud fltSize
      let shifted_source := transformPointCloud guess filtered_source
      let icp := icpAlign shifted_source filtered_target
      if icp.converged then
        if allFinite icp.finalTransformation then
          Except.ok { transform := guess * matrixToTransform icp.finalTransformation
                      covariance := covIdentity }
        else
          Except.ok { transform := Transform.id, covariance := covIdentity }
      else
        Except.error SensorError.noMatch
  | _, _ => Except.error SensorError.badMeasurementType

/-- Vertex of the pose graph (VertexObject): a robot pose at one instant.
The id models both the graph-assigned element id and the identity of the
C++ shared pointer (vertices are never removed, and distinct vertex
objects always receive distinct ids on insertion). -/
structure VertexObject where
  id : Nat
  name : String
  measurement : Measurement
  correctedPose : Transform
deriving DecidableEq

/-- Edge of the pose graph (EdgeObject): a directed constraint between two
vertices, identified by their ids, with the relative transform, its
covariance, the name of the producing sensor, and the label. -/
structure EdgeObject where
  source : Nat
  target : Nat
  transform : Transform
  covariance : Covariance
  sensor : String
  label : String

/-- Directed pose graph: vertex list, edge list (iteration order is
insertion order, as in the source's deterministic iterators), and the next
vertex id to assign. -/
structure PoseGraph where
  vertices : List VertexObject
  edges : List EdgeObject
  nextId : Nat

/-- Sensor interface: a stable name plus the registration function
calculateTransform. The behaviour of a concrete sensor is a parameter of
the mapper embedding; the point-cloud sensor above is one instance. -/
structure Sensor where
  name : String
  calculateTransform :
    Measurement → Measurement → Transform → Except SensorError TransformWithCovariance

/-- State of GraphMapper: the pose graph, the sensor registry, the optional
odometry source (a timestamp query returning none when the source throws
OdometryException), and the fields mCurrentPose, mLastVertex, mFirstVertex,
mLastOdometricPose, mVertexIndex plus the configuration values set in the
constructor. Solver notifications are external side effects without
influence on this state and are not modelled. -/
structure GraphMapper where
  graph : PoseGraph
  sensors : List (String × Sensor)
  odometry : Option (Nat → Option Transform)
  currentPose : Transform
  lastVertex : Option VertexObject
  firstVertex : Option VertexObject
  lastOdometricPose : Transform
  vertexIndex : List (Nat × Nat)
  neighborRadius : ℚ
  minTranslation : ℚ
  minRotation : ℚ
  addOdometryEdges : Bool

/-- Reserved sensor name of odometry edges. -/
def odomEdgeSensor : String :=
  "Odometry"

/-- Label of odometry edges. -/
def odomLabel : String :=
  "odom"

/-- Label of sequential-matching edges. -/
def seqLabel : String :=
  "seq"

/-- Label of loop-closure edges. -/
def matchLabel : String :=
  "match"

/-- Lookup in the sensor registry (mSensors.at with exact key match;
none models the std::out_of_range exception). -/
def lookupSensor (M : GraphMapper) (sname : String) : Option Sensor :=
  (M.sensors.find? (fun p => p.1 == sname)).map Prod.snd

/-- The vertex object GraphMapper::addVertex creates: next graph id, the
name robot:sensor, the measurement pointer and the given corrected pose. -/
def newVertexObj (M : GraphMapper) (m : Measurement) (corrected : Transform) :
    VertexObject :=
  { id := M.graph.nextId
    name := m.robotName ++ ":" ++ m.sensorName
    measurement := m
    correctedPose := corrected }

/-- Embedding of GraphMapper::addVertex (lines 137-170): append the new
vertex to the graph, record it in the measurement-id index, and set it as
the first (fixed) vertex if none exists yet. Solver calls are external. -/
def mapperAddVertex (M : GraphMapper) (m : Measurement) (corrected : Transform) :
    GraphMapper :=
  let v := newVertexObj M m corrected
  let M' := { M with
    graph := { vertices := M.graph.vertices ++ [v]
               edges := M.graph.edges
               nextId := M.graph.nextId + 1 }
    vertexIndex := M.vertexIndex ++ [(m.uniqueId, v.id)] }
  match M.firstVertex with
  | none => { M' with firstVertex := some v }
  | some _ => M'

/-- Embedding of GraphMapper::addEdge (lines 172-190): append the new edge
to the graph. Solver calls are external. -/
def mapperAddEdge (M : GraphMapper) (src tgt : Nat) (t : Transform) (c : Covariance)
    (sname lbl : String) : GraphMapper :=
  { M with graph := { M.graph with edges := M.graph.edges ++
      [{ source := src, target := tgt, transform := t, covariance := c,
         sensor := sname, label := lbl }] } }

/-- Embedding of GraphMapper::getVerticesFromSensor (lines 348-362): the
vertices whose measurement carries the given sensor name. -/
def getVerticesFromSensor (M : GraphMapper) (sname : String) : List VertexObject :=
  M.graph.vertices.filter (fun v => v.measurement.sensorName == sname)

/-- Embedding of GraphMapper::getEdgesFromSensor (lines 364-376): the loop
iterates over every edge of the graph and pushes each one onto the result,
without consulting the sensor argument. -/
def getEdgesFromSensor (M : GraphMapper) (sname : String) : List EdgeObject :=
  M.graph.edges.foldl (fun acc e => acc ++ [e]) []

/-- Squared Euclidean distance of two 3-vectors. -/
def sqDist (a b : Vec3) : ℚ :=
  (a.x - b.x) ^ 2 + (a.y - b.y) ^ 2 + (a.z - b.z) ^ 2

/-- Embedding of buildNeighborIndex followed by getNearbyVertices (lines
378-422): the KD-tree is built over the translations of the vertices from
the named sensor, and the radius query returns those within the radius of
the query translation (FLANN's L2 index works with squared distances, so
the row set returned for radius r is the set with squared distance at most
r; no claim under study depends on this metric detail). -/
def getNearbyVertices (M : GraphMapper) (sname : String) (tf : Transform)
    (radius : ℚ) : List VertexObject :=
  (getVerticesFromSensor M sname).filter
    (fun v => decide (sqDist v.correctedPose.tr tf.tr ≤ radius))

/-- The exclusion set of linkToNeighbors (lines 307-324) without the new
vertex itself: for every edge incident to the vertex whose sensor field
equals the given name, the opposite endpoint (edges of other sensors only
produce a warning and are not excluded). -/
def sensorNeighborIds (M : GraphMapper) (vertex : VertexObject) (sname : String) :
    List Nat :=
  (M.graph.edges.filter (fun e =>
      (e.source == vertex.id || e.target == vertex.id) && e.sensor == sname)).map
    (fun e => if e.source == vertex.id then e.target else e.source)

/-- Candidate loop of linkToNeighbors (lines 329-345): process candidates
in order while fewer than maxLinks edges were added; skip excluded
candidates; on a successful registration add a match edge from the
candidate to the vertex and count it; on NoMatch continue; a
BadMeasurementType thrown by the sensor aborts the loop and propagates
(the edges already added remain, as with a C++ exception). -/
def linkLoop (sensor : Sensor) (vertex : VertexObject) (excluded : List Nat)
    (maxLinks : Nat) :
    List VertexObject → Nat → GraphMapper → GraphMapper × Option SensorError
  | [], _, M => (M, none)
  | c :: rest, added, M =>
    if added < maxLinks then
      if c.id ∈ excluded then
        linkLoop sensor vertex excluded maxLinks rest added M
      else
        match sensor.calculateTransform c.measurement vertex.measurement
            (c.correctedPose.inv * vertex.correctedPose) with
        | Except.ok twc =>
            linkLoop sensor vertex excluded maxLinks rest (added + 1)
              (mapperAddEdge M c.id vertex.id twc.transform twc.covariance
                sensor.name matchLabel)
        | Except.error SensorError.noMatch =>
            linkLoop sensor vertex excluded maxLinks rest added M
        | Except.error e => (M, some e)
    else (M, none)

/-- Embedding of GraphMapper::linkToNeighbors (lines 305-346): collect the
exclusion set (the vertex itself plus its neighbors through edges of this
sensor), search the neighbor index, and run the candidate loop. -/
def linkToNeighbors (M : GraphMapper) (vertex : VertexObject) (sensor : Sensor)
    (maxLinks : Nat) : GraphMapper × Option SensorError :=
  let excluded := vertex.id :: sensorNeighborIds M vertex sensor.name
  let neighbors := getNearbyVertices M sensor.name vertex.correctedPose M.neighborRadius
  linkLoop sensor vertex excluded maxLinks neighbors 0 M

/-- The PI macro of src/src/GraphMapper.cpp: the approximate constant
3.141592654 (slightly larger than the real pi). -/
def codePI : ℚ :=
  3.141592654

/-- Exact comparison sqrt s < c for a nonnegative radicand s, modelling the
source's double sqrt followed by a strict comparison: false when c is not
positive (a square root is never below a nonpositive bound), otherwise
compare s with c squared. -/
def ratSqrtLt (s c : ℚ) : Bool :=
  if 0 < c then decide (s < c ^ 2) else false

/-- Embedding of GraphMapper::checkMinDistance (lines 436-452). The
parameter ea models the external Eigen AngleAxis angle extraction applied
to the rotation part (Eigen returns the angle of the axis-angle form, a
value in [0, pi]). The source then folds the angle into (-PI, PI] using the
approximate codePI, computes the Euclidean norm of the translation, and
accepts (returns true) unless both the norm is below mMinTranslation and
the angle is below mMinRotation. -/
def checkMinDistance (ea : Transform → ℚ) (M : GraphMapper) (t : Transform) : Bool :=
  let rot0 : ℚ := ea t
  let rot1 : ℚ := if rot0 > codePI then 2 * codePI - rot0 else rot0
  let rot : ℚ := if rot1 < -codePI then rot1 + 2 * codePI else rot1
  let sq : ℚ := t.tr.x * t.tr.x + t.tr.y * t.tr.y + t.tr.z * t.tr.z
  if ratSqrtLt sq M.minTranslation = true ∧ rot < M.minRotation then false else true

/-- Odometry query of addReading (lines 207-219): identity when no odometry
source is configured; otherwise the source's answer for the measurement's
timestamp, with none modelling a thrown OdometryException. -/
def odoQuery (M : GraphMapper) (m : Measurement) : Option Transform :=
  match M.odometry with
  | none => some Transform.id
  | some f => f m.stamp

/-- Outcome of addReading: a boolean return with the post-call mapper
state, or an exception propagating out of the call (a BadMeasurementType
thrown by a sensor is not caught by addReading) with the state at the
throw point. -/
inductive ReadingOutcome where
  | ret (b : Bool) (s : GraphMapper)
  | threw (e : SensorError) (s : GraphMapper)

/-- Closing steps of addReading (lines 276-283): rebuild the neighbor
index, link the new vertex to its neighbors with at most 5 links, then
record the new vertex as last vertex and the odometric pose; an exception
from the loop-closure step propagates before those two state updates. -/
def finishStep (M : GraphMapper) (nv : VertexObject) (sensor : Sensor)
    (odometry : Transform) : ReadingOutcome :=
  match linkToNeighbors M nv sensor 5 with
  | (M', some e) => ReadingOutcome.threw e M'
  | (M', none) =>
      ReadingOutcome.ret true { M' with lastVertex := some nv
                                        lastOdometricPose := odometry }

/-- Sequential-matching block of addReading (lines 250-283): register the
new measurement against the last vertex with the guess computed from the
current pose; on success update the current pose, create the vertex if the
odometry block did not (enforcing the minimum-distance test on the
registration result first), add the seq edge and continue with the
loop-closure step; on NoMatch reject the reading unless the odometry block
already created the vertex; a BadMeasurementType propagates. -/
def seqStep (ea : Transform → ℚ) (M : GraphMapper) (m : Measurement) (sensor : Sensor)
    (lastV : VertexObject) (newV : Option VertexObject) (odometry : Transform) :
    ReadingOutcome :=
  match sensor.calculateTransform lastV.measurement m
      (lastV.correctedPose.inv * M.currentPose) with
  | Except.ok twc =>
      let M1 := { M with currentPose := orthogonalize (lastV.correctedPose * twc.transform) }
      match newV with
      | none =>
          if checkMinDistance ea M1 twc.transform then
            let nv := newVertexObj M1 m M1.currentPose
            let M2 := mapperAddVertex M1 m M1.currentPose
            let M3 := mapperAddEdge M2 lastV.id nv.id twc.transform twc.covariance
              sensor.name seqLabel
            finishStep M3 nv sensor odometry
          else ReadingOutcome.ret false M1
      | some nv =>
          let M3 := mapperAddEdge M1 lastV.id nv.id twc.transform twc.covariance
            sensor.name seqLabel
          finishStep M3 nv sensor odometry
  | Except.error SensorError.noMatch =>
      match newV with
      | none => ReadingOutcome.ret false M
      | some nv => finishStep M nv sensor odometry
  | Except.error e => ReadingOutcome.threw e M

/-- Embedding of GraphMapper::addReading (lines 192-284). Unknown sensor or
failed odometry query reject the reading with the state untouched. The
first reading creates the first vertex at the current pose. Otherwise, with
an odometry source the odometry delta is orthogonalized, the current pose
is advanced by it, and the reading is rejected if the delta fails the
minimum-distance test (note the current pose was already updated); with
mAddOdometryEdges the vertex is created at the orthogonalized current pose
together with an odom edge. The sequential matching and loop-closure steps
follow in seqStep and finishStep. -/
def addReading (ea : Transform → ℚ) (M : GraphMapper) (m : Measurement) :
    ReadingOutcome :=
  match lookupSensor M m.sensorName with
  | none => ReadingOutcome.ret false M
  | some sensor =>
    match odoQuery M m with
    | none => ReadingOutcome.ret false M
    | some odometry =>
      match M.lastVertex with
      | none =>
          let M1 := mapperAddVertex M m M.currentPose
          ReadingOutcome.ret true { M1 with
            lastVertex := some (newVertexObj M m M.currentPose)
            lastOdometricPose := odometry }
      | some lastV =>
          if M.odometry.isSome then
            let odomDist := orthogonalize (M.lastOdometricPose.inv * odometry)
            let M2 := { M with currentPose := lastV.correctedPose * odomDist }
            if checkMinDistance ea M2 odomDist then
              if M.addOdometryEdges then
                let nv := newVertexObj M2 m (orthogonalize M2.currentPose)
                let M3 := mapperAddVertex M2 m (orthogonalize M2.currentPose)
                let M4 := mapperAddEdge M3 lastV.id nv.id odomDist covIdentity
                  odomEdgeSensor odomLabel
                seqStep ea M4 m sensor lastV (some nv) odometry
              else
                seqStep ea M2 m sensor lastV none odometry
            else ReadingOutcome.ret false M2
          else
            seqStep ea M m sensor lastV none odometry

/-- Embedding of GraphMapper::addExternalReading (lines 286-303): add a
vertex at the externally known pose unconditionally, then run the
loop-closure step alone (with the same fixed limit of 5 links) if the
sensor is registered. -/
def addExternalReading (M : GraphMapper) (m : Measurement) (t : Transform) :
    GraphMapper × Option SensorError :=
  let v := newVertexObj M m t
  let M1 := mapperAddVertex M m t
  match lookupSensor M1 m.sensorName with
  | some sensor => linkToNeighbors M1 v sensor 5
  | none => (M1, none)

/-- A mapper with an empty sensor registry, used as a concrete input. -/
def emptyMapper : GraphMapper :=
  { graph := { vertices := [], edges := [], nextId := 0 }
    sensors := []
    odometry := none
    currentPose := Transform.id
    lastVertex := none
    firstVertex := none
    lastOdometricPose := Transform.id
    vertexIndex := []
    neighborRadius := 1
    minTranslation := 1 / 2
    minRotation := 1 / 10
    addOdometryEdges := false }

/-- Angle oracle returning zero, a valid Eigen output for transforms with
identity rotation. -/
def zeroAngle : Transform → ℚ :=
  fun _ => 0

/-- A sensor whose registration always reports NoMatch. -/
def cexSensor : Sensor :=
  { name := "S"
    calculateTransform := fun _ _ _ => Except.error SensorError.noMatch }

/-- Pure translation by 5 along x. -/
def cexPose5 : Transform :=
  { rx := ⟨1, 0, 0⟩, ry := ⟨0, 1, 0⟩, rz := ⟨0, 0, 1⟩, tr := ⟨5, 0, 0⟩ }

/-- A vertex at translation 5 along x. -/
def cexVertex : VertexObject :=
  { id := 0
    name := "R:S"
    measurement := Measurement.pointCloud "R" "S" 0 0 []
    correctedPose := cexPose5 }

/-- Odometric reading: pure translation by 1/10 along x (below the minimum
translation 1/2). -/
def cexOdoPose : Transform :=
  { rx := ⟨1, 0, 0⟩, ry := ⟨0, 1, 0⟩, rz := ⟨0, 0, 1⟩, tr := ⟨1 / 10, 0, 0⟩ }

/-- A mapper that already holds one vertex, with an odometry source
reporting the small motion cexOdoPose, so that the next reading fails the
minimum-distance gate. -/
def cexMapper : GraphMapper :=
  { graph := { vertices := [cexVertex], edges := [], nextId := 1 }
    sensors := [("S", cexSensor)]
    odometry := some (fun _ => some cexOdoPose)
    currentPose := Transform.id
    lastVertex := some cexVertex
    firstVertex := some cexVertex
    lastOdometricPose := Transform.id
    vertexIndex := [(0, 0)]
    neighborRadius := 1
    minTranslation := 1 / 2
    minRotation := 1 / 10
    addOdometryEdges := false }

/-- The second reading fed to the mapper above. -/
def cexMeasurement : Measurement :=
  Measurement.pointCloud "R" "S" 1 1 []

/-- Pure translation by 51/10 along x: the current pose the rejected
reading leaves behind. -/
def cexPose51 : Transform :=
  { rx := ⟨1, 0, 0⟩, ry := ⟨0, 1, 0⟩, rz := ⟨0, 0, 1⟩, tr := ⟨51 / 10, 0, 0⟩ }

/-- Squared Euclidean norm of a transform's translation, as summed in
checkMinDistance. -/
def transSqNorm (t : Transform) : ℚ :=
  t.tr.x * t.tr.x + t.tr.y * t.tr.y + t.tr.z * t.tr.z

/-- Wrapping of an angle into the interval from -pi to pi, as the
specification words it (one fold suffices on the range Eigen produces).
Spec-side definition used to state C3. -/
noncomputable def wrapToPi (a : ℝ) : ℝ :=
  if a > Real.pi then a - 2 * Real.pi else if a < -Real.pi then a + 2 * Real.pi else a

/-- C4: for every transform T, orthogonalize returns a transform with exactly
the same translation as T, and a rotation computed by the specified
algorithm: with rows x, y of T's rotation and error = x.dot y, the result's
rows are x' = x - (error/2) y, y' = y - (error/2) x and z' = x' x y', each
scaled by 0.5 * (3 - v.dot v) of its own dot product. -/
theorem orthogonalize_matches_spec (T : Transform) :
    orthogonalize T = orthogonalizeSpec T ∧ (orthogonalize T).tr = T.tr :=
  ⟨rfl, rfl⟩

/-- Multiplying a 3-vector by the scalar one changes nothing. -/
theorem Vec3.one_smul (v : Vec3) : Vec3.smul 1 v = v := by
  cases v
  simp [Vec3.smul]

/-- Lagrange identity for the squared norm of a cross product. -/
theorem Vec3.cross_dot_cross (a b : Vec3) :
    (a.cross b).dot (a.cross b) = a.dot a * b.dot b - a.dot b * (a.dot b) := by
  cases a
  cases b
  simp only [Vec3.cross, Vec3.dot]
  ring

/-- Expansion of the squared norm of a difference of 3-vectors. -/
theorem Vec3.sub_dot_expand (a b : Vec3) :
    (a.sub b).dot (a.sub b) = a.dot a - 2 * a.dot b + b.dot b := by
  cases a
  cases b
  simp only [Vec3.sub, Vec3.dot]
  ring

/-- Two 3-vectors whose difference has squared norm zero are equal. -/
theorem Vec3.eq_of_sub_dot_zero (a b : Vec3) (h : (a.sub b).dot (a.sub b) = 0) :
    a = b := by
  obtain ⟨a1, a2, a3⟩ := a
  obtain ⟨b1, b2, b3⟩ := b
  simp only [Vec3.sub, Vec3.dot] at h
  have hsq : (a1 - b1) ^ 2 + (a2 - b2) ^ 2 + (a3 - b3) ^ 2 = 0 := by
    linear_combination h
  have e1 : (a1 - b1) ^ 2 = 0 := by
    nlinarith [sq_nonneg (a1 - b1), sq_nonneg (a2 - b2), sq_nonneg (a3 - b3)]
  have e2 : (a2 - b2) ^ 2 = 0 := by
    nlinarith [sq_nonneg (a1 - b1), sq_nonneg (a2 - b2), sq_nonneg (a3 - b3)]
  have e3 : (a3 - b3) ^ 2 = 0 := by
    nlinarith [sq_nonneg (a1 - b1), sq_nonneg (a2 - b2), sq_nonneg (a3 - b3)]
  have f1 : a1 = b1 := sub_eq_zero.mp (pow_eq_zero_iff two_ne_zero |>.mp e1)
  have f2 : a2 = b2 := sub_eq_zero.mp (pow_eq_zero_iff two_ne_zero |>.mp e2)
  have f3 : a3 = b3 := sub_eq_zero.mp (pow_eq_zero_iff two_ne_zero |>.mp e3)
  simp [f1, f2, f3]

/-- Unfolding of orthogonalize on an explicit transform, with the let
bindings of the source expanded. -/
theorem orthogonalize_mk (x y z t : Vec3) :
    orthogonalize ⟨x, y, z, t⟩ =
      { rx := Vec3.smul ((1 / 2) * (3 - (x.sub (Vec3.smul (x.dot y / 2) y)).dot
                (x.sub (Vec3.smul (x.dot y / 2) y))))
                (x.sub (Vec3.smul (x.dot y / 2) y))
        ry := Vec3.smul ((1 / 2) * (3 - (y.sub (Vec3.smul (x.dot y / 2) x)).dot
                (y.sub (Vec3.smul (x.dot y / 2) x))))
                (y.sub (Vec3.smul (x.dot y / 2) x))
        rz := Vec3.smul ((1 / 2) * (3 -
                ((x.sub (Vec3.smul (x.dot y / 2) y)).cross
                  (y.sub (Vec3.smul (x.dot y / 2) x))).dot
                ((x.sub (Vec3.smul (x.dot y / 2) y)).cross
                  (y.sub (Vec3.smul (x.dot y / 2) x)))))
                ((x.sub (Vec3.smul (x.dot y / 2) y)).cross
                  (y.sub (Vec3.smul (x.dot y / 2) x)))
        tr := t } :=
  rfl

/-- C10: for every transform whose rotation rows are pairwise orthogonal
unit vectors forming a right-handed frame (determinant one, expressed as
the triple product), orthogonalize is the identity; in particular it fixes
the identity transform (see the witness below). -/
theorem orthogonalize_orthonormal (T : Transform)
    (hx : T.rx.dot T.rx = 1) (hy : T.ry.dot T.ry = 1) (hz : T.rz.dot T.rz = 1)
    (hxy : T.rx.dot T.ry = 0) (hxz : T.rx.dot T.rz = 0) (hyz : T.ry.dot T.rz = 0)
    (hdet : T.rz.dot (T.rx.cross T.ry) = 1) :
    orthogonalize T = T := by
  obtain ⟨x, y, z, t⟩ := T
  simp only at hx hy hz hxy hxz hyz hdet
  have hw : (x.cross y).dot (x.cross y) = 1 := by
    rw [Vec3.cross_dot_cross, hx, hy, hxy]
    norm_num
  have hzw : z.dot (x.cross y) = 1 := hdet
  have hdiff : (z.sub (x.cross y)).dot (z.sub (x.cross y)) = 0 := by
    rw [Vec3.sub_dot_expand, hz, hzw, hw]
    norm_num
  have hz' : z = x.cross y := Vec3.eq_of_sub_dot_zero _ _ hdiff
  have hsx : x.sub (Vec3.smul (x.dot y / 2) y) = x := by
    rw [hxy]
    cases x
    cases y
    simp [Vec3.sub, Vec3.smul]
  have hsy : y.sub (Vec3.smul (x.dot y / 2) x) = y := by
    rw [hxy]
    cases x
    cases y
    simp [Vec3.sub, Vec3.smul]
  rw [orthogonalize_mk, hsx, hsy, hx, hy, hw, hz']
  norm_num [Vec3.one_smul]

/-- Witness for C10: the identity transform is orthonormal and is fixed by
orthogonalize. -/
theorem orthogonalize_orthonormal_witness :
    orthogonalize Transform.id = Transform.id :=
  orthogonalize_orthonormal Transform.id
    (by norm_num [Transform.id, Vec3.dot])
    (by norm_num [Transform.id, Vec3.dot])
    (by norm_num [Transform.id, Vec3.dot])
    (by norm_num [Transform.id, Vec3.dot])
    (by norm_num [Transform.id, Vec3.dot])
    (by norm_num [Transform.id, Vec3.dot])
    (by norm_num [Transform.id, Vec3.dot, Vec3.cross])

/-- C2: if ICP converges but its final transformation matrix has a
non-finite entry, calculateTransform returns the identity transform with
the identity covariance (only logging an error); it raises neither NoMatch
nor any other error. -/
theorem calculateTransform_nonfinite_identity
    (vg : List Vec3 → ℚ → List Vec3) (icpAlign : List Vec3 → List Vec3 → ICPResult)
    (r1 s1 : String) (u1 t1 : Nat) (c1 : List Vec3)
    (r2 s2 : String) (u2 t2 : Nat) (c2 : List Vec3) (guess : Transform)
    (hconv : (icpAlign (transformPointCloud guess (vg c1 fltSize)) (vg c2 fltSize)).converged
      = true)
    (hnf : allFinite (icpAlign (transformPointCloud guess (vg c1 fltSize))
      (vg c2 fltSize)).finalTransformation = false) :
    calculateTransform vg icpAlign (Measurement.pointCloud r1 s1 u1 t1 c1)
      (Measurement.pointCloud r2 s2 u2 t2 c2) guess =
      Except.ok (TransformWithCovariance.mk Transform.id covIdentity) := by
  simp [calculateTransform, hconv, hnf]

/-- Witness for C2: an aligner that converges to an all-NaN matrix makes
calculateTransform return the identity result. -/
theorem calculateTransform_nonfinite_identity_witness :
    calculateTransform (fun c _ => c) (fun _ _ => ⟨true, fun _ _ => none⟩)
      (Measurement.pointCloud "r" "s" 0 0 []) (Measurement.pointCloud "r" "s" 1 1 [])
      Transform.id =
      Except.ok (TransformWithCovariance.mk Transform.id covIdentity) :=
  calculateTransform_nonfinite_identity (fun c _ => c) (fun _ _ => ⟨true, fun _ _ => none⟩)
    "r" "s" 0 0 [] "r" "s" 1 1 [] Transform.id rfl (by simp [allFinite])

/-- C5: if both measurements are point clouds, ICP converges and its final
transformation is entirely finite, calculateTransform returns the guess
left-composed with the ICP transform, where ICP ran on the guess-shifted,
downsampled source cloud against the downsampled target cloud. -/
theorem calculateTransform_success_composition
    (vg : List Vec3 → ℚ → List Vec3) (icpAlign : List Vec3 → List Vec3 → ICPResult)
    (r1 s1 : String) (u1 t1 : Nat) (c1 : List Vec3)
    (r2 s2 : String) (u2 t2 : Nat) (c2 : List Vec3) (guess : Transform)
    (hconv : (icpAlign (transformPointCloud guess (vg c1 fltSize)) (vg c2 fltSize)).converged
      = true)
    (hf : allFinite (icpAlign (transformPointCloud guess (vg c1 fltSize))
      (vg c2 fltSize)).finalTransformation = true) :
    calculateTransform vg icpAlign (Measurement.pointCloud r1 s1 u1 t1 c1)
      (Measurement.pointCloud r2 s2 u2 t2 c2) guess =
      Except.ok (TransformWithCovariance.mk
        (guess * matrixToTransform
          (icpAlign (transformPointCloud guess (vg c1 fltSize))
            (vg c2 fltSize)).finalTransformation)
        covIdentity) := by
  simp [calculateTransform, hconv, hf]

/-- Witness for C5: an aligner that converges to the (finite) identity
matrix makes calculateTransform return the guess composed with it. -/
theorem calculateTransform_success_composition_witness :
    calculateTransform (fun c _ => c)
      (fun _ _ => ⟨true, fun i j => some (if i = j then 1 else 0)⟩)
      (Measurement.pointCloud "r" "s" 0 0 []) (Measurement.pointCloud "r" "s" 1 1 [])
      Transform.id =
      Except.ok (TransformWithCovariance.mk
        (Transform.id * matrixToTransform (fun i j => some (if i = j then 1 else 0)))
        covIdentity) :=
  calculateTransform_success_composition (fun c _ => c)
    (fun _ _ => ⟨true, fun i j => some (if i = j then 1 else 0)⟩)
    "r" "s" 0 0 [] "r" "s" 1 1 [] Transform.id rfl (by simp [allFinite])

/-- C6: calculateTransform fails with an error e precisely when either e is
BadMeasurementType and one of the measurements is not a point cloud, or e
is NoMatch, both measurements are point clouds, and ICP (run on the
guess-shifted downsampled source against the downsampled target) did not
converge. -/
theorem calculateTransform_error_characterization
    (vg : List Vec3 → ℚ → List Vec3) (icpAlign : List Vec3 → List Vec3 → ICPResult)
    (src tgt : Measurement) (guess : Transform) (e : SensorError) :
    calculateTransform vg icpAlign src tgt guess = Except.error e ↔
      ((e = SensorError.badMeasurementType ∧
          ¬(src.isPointCloud = true ∧ tgt.isPointCloud = true)) ∨
        (e = SensorError.noMatch ∧ src.isPointCloud = true ∧ tgt.isPointCloud = true ∧
          (icpAlign (transformPointCloud guess (vg src.cloudData fltSize))
            (vg tgt.cloudData fltSize)).converged = false)) := by
  cases src with
  | generic r1 s1 u1 t1 =>
      cases tgt <;>
        · simp [calculateTransform, Measurement.isPointCloud]
          exact eq_comm
  | pointCloud r1 s1 u1 t1 c1 =>
      cases tgt with
      | generic r2 s2 u2 t2 =>
          simp [calculateTransform, Measurement.isPointCloud]
          exact eq_comm
      | pointCloud r2 s2 u2 t2 c2 =>
          by_cases hc : (icpAlign (transformPointCloud guess (vg c1 fltSize))
              (vg c2 fltSize)).converged
          · by_cases hf : allFinite (icpAlign (transformPointCloud guess (vg c1 fltSize))
                (vg c2 fltSize)).finalTransformation
            · simp [calculateTransform, Measurement.isPointCloud, Measurement.cloudData,
                hc, hf]
            · simp [calculateTransform, Measurement.isPointCloud, Measurement.cloudData,
                hc, hf]
          · simp only [Bool.not_eq_true] at hc
            simp [calculateTransform, Measurement.isPointCloud, Measurement.cloudData, hc]
            exact eq_comm

/-- Folding list append over a list starting from an accumulator appends
the list to the accumulator. -/
theorem foldl_push_eq_append (l acc : List EdgeObject) :
    l.foldl (fun acc e => acc ++ [e]) acc = acc ++ l := by
  induction l generalizing acc with
  | nil => simp
  | cons e rest ih => simp [List.foldl_cons, ih]

/-- C7: for every sensor name and every mapper state, getEdgesFromSensor
returns every edge of the pose graph, regardless of the edge's sensor
field (the filtering the name promises is absent from the source). -/
theorem getEdgesFromSensor_returns_all (M : GraphMapper) (sname : String) :
    getEdgesFromSensor M sname = M.graph.edges := by
  simp [getEdgesFromSensor, foldl_push_eq_append]

/-- C9: a reading whose sensor name is not in the registry is rejected with
the whole mapper state (pose graph included) unchanged. -/
theorem addReading_unregistered (ea : Transform → ℚ) (M : GraphMapper)
    (m : Measurement) (h : ∀ p ∈ M.sensors, p.1 ≠ m.sensorName) :
    addReading ea M m = ReadingOutcome.ret false M := by
  have hl : lookupSensor M m.sensorName = none := by
    have : M.sensors.find? (fun p => p.1 == m.sensorName) = none := by
      rw [List.find?_eq_none]
      intro p hp
      simpa using h p hp
    simp [lookupSensor, this]
  simp [addReading, hl]

/-- Witness for C9: on the empty registry the reading is rejected and the
state returned is the input state. -/
theorem addReading_unregistered_witness :
    addReading (fun _ => 0) emptyMapper (Measurement.generic "R" "S" 0 0) =
      ReadingOutcome.ret false emptyMapper :=
  addReading_unregistered (fun _ => 0) emptyMapper (Measurement.generic "R" "S" 0 0)
    (by simp [emptyMapper])

/-- Multiplication on transforms is composition. -/
theorem Transform.mul_def (A B : Transform) : A * B = A.comp B := rfl

/-- The closing step of addReading never returns false: it either throws or
accepts the reading. -/
theorem finishStep_ne_false (M : GraphMapper) (nv : VertexObject) (sensor : Sensor)
    (odometry : Transform) (M' : GraphMapper) :
    finishStep M nv sensor odometry ≠ ReadingOutcome.ret false M' := by
  unfold finishStep
  split
  · simp
  · simp

/-- When the odometry block already created the vertex, the sequential step
never returns false. -/
theorem seqStep_some_ne_false (ea : Transform → ℚ) (M : GraphMapper) (m : Measurement)
    (sensor : Sensor) (lastV nv : VertexObject) (odometry : Transform) (M' : GraphMapper) :
    seqStep ea M m sensor lastV (some nv) odometry ≠ ReadingOutcome.ret false M' := by
  unfold seqStep
  split
  · exact finishStep_ne_false _ _ _ _ _
  · exact finishStep_ne_false _ _ _ _ _
  · simp

/-- A sequential step that rejects the reading leaves the graph, the last
and first vertices and the last odometric pose untouched. -/
theorem seqStep_false_state (ea : Transform → ℚ) (M : GraphMapper) (m : Measurement)
    (sensor : Sensor) (lastV : VertexObject) (newV : Option VertexObject)
    (odometry : Transform) (M' : GraphMapper)
    (h : seqStep ea M m sensor lastV newV odometry = ReadingOutcome.ret false M') :
    M'.graph = M.graph ∧ M'.lastVertex = M.lastVertex ∧ M'.firstVertex = M.firstVertex ∧
      M'.lastOdometricPose = M.lastOdometricPose := by
  cases newV with
  | some nv => exact absurd h (seqStep_some_ne_false ea M m sensor lastV nv odometry M')
  | none =>
      unfold seqStep at h
      split at h
      · split at h
        · dsimp only at h
          split at h
          · exact absurd h (finishStep_ne_false _ _ _ _ _)
          · simp only [ReadingOutcome.ret.injEq, true_and] at h
            subst h
            exact ⟨rfl, rfl, rfl, rfl⟩
        · contradiction
      · split at h
        · simp only [ReadingOutcome.ret.injEq, true_and] at h
          subst h
          exact ⟨rfl, rfl, rfl, rfl⟩
        · contradiction
      · simp at h

/-- C1 (amended): a rejected reading leaves the pose graph (vertex and edge
sets), the last vertex, the first vertex and the last odometric pose
unchanged; the current pose however may have been overwritten before the
rejection (see the counterexample to the unamended claim). -/
theorem addReading_reject_state (ea : Transform → ℚ) (M : GraphMapper) (m : Measurement)
    (M' : GraphMapper) (h : addReading ea M m = ReadingOutcome.ret false M') :
    M'.graph = M.graph ∧ M'.lastVertex = M.lastVertex ∧ M'.firstVertex = M.firstVertex ∧
      M'.lastOdometricPose = M.lastOdometricPose := by
  unfold addReading at h
  split at h
  · simp only [ReadingOutcome.ret.injEq, true_and] at h
    subst h
    exact ⟨rfl, rfl, rfl, rfl⟩
  · split at h
    · simp only [ReadingOutcome.ret.injEq, true_and] at h
      subst h
      exact ⟨rfl, rfl, rfl, rfl⟩
    · split at h
      · simp at h
      · split at h
        · dsimp only at h
          split at h
          · split at h
            · exact absurd h (seqStep_some_ne_false _ _ _ _ _ _ _ _)
            · have hs := seqStep_false_state _ _ _ _ _ _ _ _ h
              exact hs
          · simp only [ReadingOutcome.ret.injEq, true_and] at h
            subst h
            exact ⟨rfl, rfl, rfl, rfl⟩
        · have hs := seqStep_false_state _ _ _ _ _ _ _ _ h
          exact hs

/-- Counterexample to C1 as stated: this reading is rejected (addReading
returns false), yet the returned state's current pose differs from the
pre-call current pose: the source overwrites mCurrentPose with the
odometry-advanced pose before the minimum-distance gate rejects. -/
theorem addReading_reject_mutates_currentPose :
    addReading zeroAngle cexMapper cexMeasurement =
      ReadingOutcome.ret false { cexMapper with currentPose := cexPose51 } ∧
      cexPose51 ≠ cexMapper.currentPose := by
  constructor
  · norm_num [addReading, lookupSensor, odoQuery, cexMapper, cexSensor, cexVertex,
      cexMeasurement, cexPose5, cexOdoPose, cexPose51, zeroAngle,
      Measurement.sensorName, Measurement.stamp, Transform.id, Transform.inv,
      Transform.mul_def, Transform.comp, Transform.apply, Vec3.dot, Vec3.combo,
      Vec3.smul, Vec3.add, Vec3.sub, Vec3.cross, orthogonalize, checkMinDistance,
      ratSqrtLt, codePI]
  · simp [cexPose51, cexMapper, Transform.id]

/-- Witness for the amended C1: at the concrete rejected reading above, the
graph, last vertex, first vertex and last odometric pose are unchanged. -/
theorem addReading_reject_state_witness :
    ({ cexMapper with currentPose := cexPose51 } : GraphMapper).graph = cexMapper.graph ∧
      ({ cexMapper with currentPose := cexPose51 } : GraphMapper).lastVertex =
        cexMapper.lastVertex ∧
      ({ cexMapper with currentPose := cexPose51 } : GraphMapper).firstVertex =
        cexMapper.firstVertex ∧
      ({ cexMapper with currentPose := cexPose51 } : GraphMapper).lastOdometricPose =
        cexMapper.lastOdometricPose :=
  addReading_reject_state zeroAngle cexMapper cexMeasurement
    { cexMapper with currentPose := cexPose51 }
    (by norm_num [addReading, lookupSensor, odoQuery, cexMapper, cexSensor, cexVertex,
      cexMeasurement, cexPose5, cexOdoPose, cexPose51, zeroAngle,
      Measurement.sensorName, Measurement.stamp, Transform.id, Transform.inv,
      Transform.mul_def, Transform.comp, Transform.apply, Vec3.dot, Vec3.combo,
      Vec3.smul, Vec3.add, Vec3.sub, Vec3.cross, orthogonalize, checkMinDistance,
      ratSqrtLt, codePI])

/-- Invariant of the loop-closure candidate loop: only match edges pointing
at the vertex are appended, never more than the remaining budget, and never
from an excluded source. -/
theorem linkLoop_spec (sensor : Sensor) (vertex : VertexObject) (excluded : List Nat)
    (maxLinks : Nat) (cands : List VertexObject) (added : Nat) (M : GraphMapper) :
    ∃ new : List EdgeObject,
      (linkLoop sensor vertex excluded maxLinks cands added M).1.graph.edges =
        M.graph.edges ++ new ∧
      new.length ≤ maxLinks - added ∧
      ∀ e ∈ new, e.label = matchLabel ∧ e.target = vertex.id ∧ e.source ∉ excluded := by
  induction cands generalizing added M with
  | nil => exact ⟨[], by simp [linkLoop], by simp, by simp⟩
  | cons c rest ih =>
      by_cases hlt : added < maxLinks
      · by_cases hex : c.id ∈ excluded
        · simp only [linkLoop, if_pos hlt, if_pos hex]
          exact ih added M
        · simp only [linkLoop, if_pos hlt, if_neg hex]
          cases hcalc : sensor.calculateTransform c.measurement vertex.measurement
              (c.correctedPose.inv * vertex.correctedPose) with
          | ok twc =>
              obtain ⟨new', h1, h2, h3⟩ := ih (added + 1)
                (mapperAddEdge M c.id vertex.id twc.transform twc.covariance
                  sensor.name matchLabel)
              refine ⟨{ source := c.id, target := vertex.id, transform := twc.transform,
                        covariance := twc.covariance, sensor := sensor.name,
                        label := matchLabel } :: new', ?_, ?_, ?_⟩
              · rw [h1]
                simp [mapperAddEdge]
              · simp only [List.length_cons]
                omega
              · intro e he
                rcases List.mem_cons.mp he with rfl | htail
                · exact ⟨rfl, rfl, hex⟩
                · exact h3 e htail
          | error err =>
              cases err with
              | noMatch => exact ih added M
              | badMeasurementType => exact ⟨[], by simp, by simp, by simp⟩
      · simp only [linkLoop, if_neg hlt]
        exact ⟨[], by simp, by simp, by simp⟩

/-- C8: one invocation of the loop-closure step with the fixed limit 5 (as
called from addReading and addExternalReading) appends at most 5 edges, all
labelled match and directed at the new vertex; no appended edge starts at
the new vertex itself, nor at a vertex that an edge already in the graph
with this sensor's name connects to the new vertex. -/
theorem linkToNeighbors_match_bound (M : GraphMapper) (v : VertexObject) (sensor : Sensor) :
    ∃ new : List EdgeObject,
      (linkToNeighbors M v sensor 5).1.graph.edges = M.graph.edges ++ new ∧
      new.length ≤ 5 ∧
      ∀ e ∈ new, e.label = matchLabel ∧ e.target = v.id ∧ e.source ≠ v.id ∧
        ∀ e0 ∈ M.graph.edges, e0.sensor = sensor.name →
          ((e0.source = v.id → e0.target ≠ e.source) ∧
            (e0.target = v.id → e0.source ≠ e.source)) := by
  obtain ⟨new, h1, h2, h3⟩ := linkLoop_spec sensor v
    (v.id :: sensorNeighborIds M v sensor.name) 5
    (getNearbyVertices M sensor.name v.correctedPose M.neighborRadius) 0 M
  refine ⟨new, h1, by simpa using h2, ?_⟩
  intro e he
  obtain ⟨hl, ht, hs⟩ := h3 e he
  have hnv : e.source ≠ v.id := by
    intro hh
    exact hs (by simp [hh])
  refine ⟨hl, ht, hnv, ?_⟩
  intro e0 he0 hsens
  constructor
  · intro hsrc hcontra
    apply hs
    apply List.mem_cons.mpr
    right
    unfold sensorNeighborIds
    apply List.mem_map.mpr
    refine ⟨e0, ?_, ?_⟩
    · apply List.mem_filter.mpr
      refine ⟨he0, ?_⟩
      simp [hsrc, hsens]
    · simp [hsrc, hcontra]
  · intro htgt hcontra
    by_cases hsrc : e0.source = v.id
    · exact hnv (hcontra ▸ hsrc)
    · apply hs
      apply List.mem_cons.mpr
      right
      unfold sensorNeighborIds
      apply List.mem_map.mpr
      refine ⟨e0, ?_, ?_⟩
      · apply List.mem_filter.mpr
        refine ⟨he0, ?_⟩
        simp [htgt, hsens]
      · rw [if_neg]
        · exact hcontra
        · simp [hsrc]

/-- Witness for C8: the loop-closure bound instantiated at a concrete
mapper, vertex and sensor. -/
theorem linkToNeighbors_match_bound_witness :
    ∃ new : List EdgeObject,
      (linkToNeighbors cexMapper cexVertex cexSensor 5).1.graph.edges =
        cexMapper.graph.edges ++ new ∧
      new.length ≤ 5 ∧
      ∀ e ∈ new, e.label = matchLabel ∧ e.target = cexVertex.id ∧
        e.source ≠ cexVertex.id ∧
        ∀ e0 ∈ cexMapper.graph.edges, e0.sensor = cexSensor.name →
          ((e0.source = cexVertex.id → e0.target ≠ e.source) ∧
            (e0.target = cexVertex.id → e0.source ≠ e.source)) :=
  linkToNeighbors_match_bound cexMapper cexVertex cexSensor

/-- The exact square-root comparison agrees with the real square root. -/
theorem ratSqrtLt_iff (s c : ℚ) :
    (ratSqrtLt s c = true) ↔ Real.sqrt (s : ℝ) < (c : ℝ) := by
  unfold ratSqrtLt
  by_cases hc : 0 < c
  · rw [if_pos hc, decide_eq_true_eq]
    have hc' : (0 : ℝ) < (c : ℝ) := by exact_mod_cast hc
    rw [Real.sqrt_lt' hc']
    constructor
    · intro h
      exact_mod_cast h
    · intro h
      exact_mod_cast h
  · rw [if_neg hc]
    have hcr : (c : ℝ) ≤ 0 := by exact_mod_cast not_lt.mp hc
    have hsq := Real.sqrt_nonneg (s : ℝ)
    simp only [Bool.false_eq_true, false_iff, not_lt]
    linarith

/-- The real pi is below the source's approximate PI macro. -/
theorem pi_lt_codePI : Real.pi < ((codePI : ℚ) : ℝ) := by
  have h := Real.pi_lt_d20
  have he : ((codePI : ℚ) : ℝ) = 3.141592654 := by
    norm_num [codePI]
  rw [he]
  refine lt_trans h ?_
  norm_num

/-- C3: checkMinDistance returns false exactly when the Euclidean norm of
the translation is strictly below the minimum translation and the absolute
rotation angle, wrapped into the interval from -pi to pi, is strictly below
the minimum rotation. The hypotheses are the contract of Eigen's AngleAxis
angle extraction: a value in the closed interval from 0 to pi. -/
theorem checkMinDistance_iff (ea : Transform → ℚ) (M : GraphMapper) (T : Transform)
    (h0 : 0 ≤ ea T) (h1 : ((ea T : ℚ) : ℝ) ≤ Real.pi) :
    (checkMinDistance ea M T = false ↔
      (Real.sqrt ((transSqNorm T : ℚ) : ℝ) < ((M.minTranslation : ℚ) : ℝ) ∧
        |wrapToPi ((ea T : ℚ) : ℝ)| < ((M.minRotation : ℚ) : ℝ))) := by
  have hpic : Real.pi < ((codePI : ℚ) : ℝ) := pi_lt_codePI
  have hlt : ea T ≤ codePI := by
    have hx : ((ea T : ℚ) : ℝ) < ((codePI : ℚ) : ℝ) := lt_of_le_of_lt h1 hpic
    have hx' : ea T < codePI := by exact_mod_cast hx
    exact hx'.le
  have hcodepos : (0 : ℚ) < codePI := by norm_num [codePI]
  have hw1 : ¬(ea T > codePI) := not_lt.mpr hlt
  have hw2 : ¬(ea T < -codePI) := not_lt.mpr (by linarith)
  have h0r : (0 : ℝ) ≤ ((ea T : ℚ) : ℝ) := by exact_mod_cast h0
  have hv1 : ¬(((ea T : ℚ) : ℝ) > Real.pi) := not_lt.mpr h1
  have hv2 : ¬(((ea T : ℚ) : ℝ) < -Real.pi) := by
    have := Real.pi_pos
    push_neg
    linarith
  unfold checkMinDistance wrapToPi
  dsimp only
  rw [if_neg hw1, if_neg hw2, if_neg hv1, if_neg hv2, abs_of_nonneg h0r]
  by_cases hcond : ratSqrtLt (T.tr.x * T.tr.x + T.tr.y * T.tr.y + T.tr.z * T.tr.z)
      M.minTranslation = true ∧ ea T < M.minRotation
  · rw [if_pos hcond]
    constructor
    · intro _
      refine ⟨(ratSqrtLt_iff _ _).mp hcond.1, ?_⟩
      exact_mod_cast hcond.2
    · intro _
      rfl
  · rw [if_neg hcond]
    constructor
    · intro h
      simp at h
    · intro hR
      exfalso
      apply hcond
      refine ⟨(ratSqrtLt_iff _ _).mpr hR.1, ?_⟩
      exact_mod_cast hR.2

/-- Witness for C3: the characterization instantiated at the zero angle
oracle, a concrete mapper and the identity transform. -/
theorem checkMinDistance_iff_witness :
    (checkMinDistance zeroAngle cexMapper Transform.id = false ↔
      (Real.sqrt ((transSqNorm Transform.id : ℚ) : ℝ) <
          ((cexMapper.minTranslation : ℚ) : ℝ) ∧
        |wrapToPi ((zeroAngle Transform.id : ℚ) : ℝ)| <
          ((cexMapper.minRotation : ℚ) : ℝ))) :=
  checkMinDistance_iff zeroAngle cexMapper Transform.id (by norm_num [zeroAngle])
    (by
      norm_num [zeroAngle]
      exact Real.pi_nonneg)
